import Mathlib

/-!
Shallow embedding of the compute-example repository
(src/common/container.ts, src/common/manager.ts, src/src/index.ts)
and verification of the frozen claims about it.

The source is TypeScript executed with JavaScript runtime semantics.  Where a
JavaScript quirk decides control flow (typeof of an undeclared identifier,
strict equality between values of different runtime types, truthiness of an
un-awaited Promise), the embedding models that quirk with an explicitly named
definition whose doc comment cites the source line.
-/

namespace ComputeExample

/-- ContainerState from container.ts lines 12-18: the persisted lifecycle
state of one supervised compute unit. -/
inductive ContainerState where
  | starting
  | running
  | unhealthy
  | stopped
  | failed
  | unknown
deriving DecidableEq, Repr

/-- ContainerStartupOptions as used by manager.ts and index.ts lines 128-136:
environment variables, entrypoint arguments and the internet flag, each
optional. -/
structure ContainerStartupOptions where
  env : Option (List (String × String))
  entrypoint : Option (List String)
  enableInternet : Option Bool
deriving DecidableEq, Repr

/-- ContainerInfo from manager.ts lines 4-9: one directory record of the
fleet manager. -/
structure ContainerInfo where
  startupOpts : ContainerStartupOptions
  name : String
  state : ContainerState
  bindingName : String
deriving DecidableEq, Repr

/-- Errors thrown by the manager methods, distinguished by their throw site
in manager.ts. `typeError` stands for the runtime TypeError raised when a
method is invoked on an undefined storage value (manager.ts line 73). -/
inductive JsError where
  | noBindingProvided
  | ambiguousBinding
  | noSuchBinding (name : String)
  | noRecord (name : String)
  | typeError
deriving DecidableEq, Repr

/-- Result value of a configured healthCheck (index.ts lines 12-38): either a
string sentinel or a non-string Response object. -/
inductive HealthCheckResult where
  | str (s : String)
  | response
deriving DecidableEq, Repr

/-- Outcome of `wrap(maybeHealthCheck())` in container.ts line 114: either the
result, or an internal error from issuing the check. -/
inductive HealthCheckOutcome where
  | ok (r : HealthCheckResult)
  | err
deriving DecidableEq, Repr

/-- container.ts line 66: `(await this.ctx.storage.get("state")) ?? "unknown"`.
Storage is modelled as an optional state record; an absent record reads as
`unknown`. -/
def stateRead (st : Option ContainerState) : ContainerState :=
  st.getD ContainerState.unknown

/-- The dispatch on the healthCheck outcome, container.ts lines 114-150: an
internal error sets `failed` unless the current state is `starting` (lines
115-125); a non-string result is treated as an unhealthy Response (lines
127-138); the string "ok" sets `running` (lines 140-143); "not_listening" or
"no_container_yet" sets `starting` (lines 145-148); any other string is logged
and nothing is written (line 150).  `none` means no state write. -/
def probeDispatch (outcome : HealthCheckOutcome) (state : ContainerState) :
    Option ContainerState :=
  match outcome with
  | HealthCheckOutcome.err =>
      if state ≠ ContainerState.starting then some ContainerState.failed
      else none
  | HealthCheckOutcome.ok HealthCheckResult.response => some ContainerState.unhealthy
  | HealthCheckOutcome.ok (HealthCheckResult.str s) =>
      if s = "ok" then some ContainerState.running
      else if s = "not_listening" ∨ s = "no_container_yet" then
        some ContainerState.starting
      else none

/-- container.ts line 113: `typeof maybeHealthcheck === "function"`.  The
identifier tested is `maybeHealthcheck` with a lower-case c, not the
`maybeHealthCheck` bound on line 111.  It is undeclared, typeof of an
undeclared identifier evaluates to the string "undefined", and the comparison
is false whether or not a healthCheck method is configured on the object. -/
def alarmProbeGuard (_healthCheckConfigured : Bool) : Bool :=
  false

/-- The state write performed by one run of `alarm`, container.ts lines
107-161: if the guard on line 113 held, the healthCheck outcome would be
dispatched (lines 114-150); otherwise the else branch on line 152 writes the
current state back via `setState(state)`.  Because of the identifier typo the
guard never holds (see `alarmProbeGuard`), so every probe cycle takes the
write-back branch. -/
def alarmStateWrite (healthCheckConfigured : Bool)
    (outcome : HealthCheckOutcome) (state : ContainerState) :
    Option ContainerState :=
  if alarmProbeGuard healthCheckConfigured then probeDispatch outcome state
  else some state

/-- In-process monitor bookkeeping of one supervisor.  Promises are modelled
by identity: `attached` is the id of the promise whose resolution handlers
are attached, `next` is the id a fresh `container.monitor()` call would
return. -/
structure MonitorSt where
  attached : Option Nat
  next : Nat
deriving DecidableEq, Repr

/-- Effect of the completion monitor resolving, container.ts lines 163-192:
from `running` or `unhealthy` the state becomes `stopped` (lines 167-171);
from `starting` line 177 calls `handleMonitorPromise(this.monitor)`, which
re-attaches handlers to the same, already resolved promise held in
`this.monitor` rather than obtaining a fresh promise from
`container.monitor()`, so the monitor bookkeeping is unchanged; from `failed`
only a log is emitted (lines 181-185). -/
def monitorResolveStep (state : ContainerState) (m : MonitorSt) :
    ContainerState × MonitorSt :=
  if state = ContainerState.running ∨ state = ContainerState.unhealthy then
    (ContainerState.stopped, m)
  else if state = ContainerState.starting then
    (state, m)
  else
    (state, m)

/-- The completion-monitor clause of the spec, stated for comparison with
`monitorResolveStep`: on `starting` a fresh completion-monitor is attached,
so the attached promise is the next fresh id. -/
def monitorResolveStepSpec (state : ContainerState) (m : MonitorSt) :
    ContainerState × MonitorSt :=
  if state = ContainerState.running ∨ state = ContainerState.unhealthy then
    (ContainerState.stopped, m)
  else if state = ContainerState.starting then
    (state, { attached := some m.next, next := m.next + 1 })
  else
    (state, m)

/-- The storage-writing operations of one supervisor.  `alarmOp` is a probe
cycle (container.ts lines 107-161) with the given configuration and
healthCheck outcome; `monitorResolveOp` and `monitorRejectOp` are the two
continuations of `handleMonitorPromise` (lines 163-192); `startOp` is `start`
(lines 195-209) with the flag telling whether the unit was already running. -/
inductive SupervisorOp where
  | alarmOp (healthCheckConfigured : Bool) (outcome : HealthCheckOutcome)
  | monitorResolveOp
  | monitorRejectOp
  | startOp (alreadyRunning : Bool)
deriving DecidableEq, Repr

/-- Effect of each supervisor operation on the persisted state record.
The alarm applies `alarmStateWrite` to the state read from storage; monitor
resolution writes `stopped` only from `running` or `unhealthy`; monitor
rejection writes `failed` unconditionally (container.ts lines 188-191);
`start` on a unit that is not already running writes `running` (line 206),
and returns early with no write otherwise (lines 196-203). -/
def applyOp (op : SupervisorOp) (st : Option ContainerState) :
    Option ContainerState :=
  match op with
  | SupervisorOp.alarmOp cfg outcome =>
      match alarmStateWrite cfg outcome (stateRead st) with
      | some s => some s
      | none => st
  | SupervisorOp.monitorResolveOp =>
      let s := stateRead st
      if s = ContainerState.running ∨ s = ContainerState.unhealthy then
        some ContainerState.stopped
      else st
  | SupervisorOp.monitorRejectOp => some ContainerState.failed
  | SupervisorOp.startOp alreadyRunning =>
      if alreadyRunning then st else some ContainerState.running

/-- The arm-if-none discipline shared by container.ts lines 99-105 and
manager.ts lines 160-166: read the pending alarm, and set the new value only
when none is pending. -/
def setAlarmIfNone (pending : Option Nat) (value : Nat) : Option Nat :=
  match pending with
  | none => some value
  | some t => some t

/-- Scheduling effect of one run of the supervisor alarm handler,
container.ts lines 107-161: the platform may have consumed the pending alarm
when invoking the handler (`cleared`); the body runs under try/catch and may
throw (`bodyFails`) without touching the alarm; the finally step calls
`setAlarm()` with the default `Date.now() + 500`. -/
def containerAlarmRun (_bodyFails : Bool) (cleared : Bool)
    (pending : Option Nat) (now : Nat) : Option Nat :=
  let entry := if cleared then none else pending
  setAlarmIfNone entry (now + 500)

/-- Scheduling effect of one run of the manager alarm handler, manager.ts
lines 168-174: same shape as the supervisor, with a try/finally around the
reconciliation body and the default `Date.now() + 1000`. -/
def managerAlarmRun (_bodyFails : Bool) (cleared : Bool)
    (pending : Option Nat) (now : Nat) : Option Nat :=
  let entry := if cleared then none else pending
  setAlarmIfNone entry (now + 1000)

/-- getBinding, manager.ts lines 26-45: with an empty name, zero configured
bindings is an error, exactly one returns that binding, and several are an
ambiguity error; with a non-empty name the binding map is looked up and a
missing entry is an error.  The binding map is modelled as an association
list with the object-key order of construction. -/
def getBinding {β : Type} (bindings : List (String × β)) (name : String) :
    Except JsError β :=
  let keys := bindings.map Prod.fst
  if name = "" then
    if keys.length = 0 then Except.error JsError.noBindingProvided
    else if keys.length = 1 then
      match bindings with
      | (_, v) :: _ => Except.ok v
      | [] => Except.error JsError.noBindingProvided
    else Except.error JsError.ambiguousBinding
  else
    match bindings.lookup name with
    | none => Except.error (JsError.noSuchBinding name)
    | some v => Except.ok v

/-- requestContainer, manager.ts lines 68-81: read the directory, filter it
by name, throw unless exactly one record matches, then resolve the binding of
that record and forward to the addressed supervisor.  A missing directory key
makes line 73 call `.filter` on undefined, a TypeError.  The routing result is
the resolved binding together with the unit name the request is forwarded
to. -/
def requestContainer {β : Type} (bindings : List (String × β))
    (store : Option (List ContainerInfo)) (name : String) :
    Except JsError (β × String) :=
  match store with
  | none => Except.error JsError.typeError
  | some containers =>
      match containers.filter (fun c => c.name == name) with
      | [c] => (getBinding bindings c.bindingName).map (fun b => (b, name))
      | _ => Except.error (JsError.noRecord name)

/-- JavaScript strict equality between a directory record and a string, as in
`containers.includes(name)` (manager.ts line 93) and `d !== name` (line 111):
a record is an object and the name a string, values of different runtime
types, so strict equality is always false. -/
def jsRecordEqString (_record : ContainerInfo) (_name : String) : Bool :=
  false

/-- addContainer, manager.ts lines 84-103: read the directory (defaulting to
empty), and push a fresh record with state `starting` unless
`containers.includes(name)` holds.  `includes` compares each record object to
the name string (see `jsRecordEqString`), so the membership test is always
false and a record is pushed on every call. -/
def addContainer (store : Option (List ContainerInfo)) (name : String)
    (opts : ContainerStartupOptions) (bindingName : String) :
    List ContainerInfo :=
  let containers := store.getD []
  if ¬ (containers.any (fun c => jsRecordEqString c name)) then
    containers ++
      [{ startupOpts := opts, name := name,
         state := ContainerState.starting, bindingName := bindingName }]
  else containers

/-- rmContainer, manager.ts lines 105-117: return false on a missing or empty
directory; otherwise filter with `(d) => d !== name`, which compares each
record object to the name string (see `jsRecordEqString`) and therefore keeps
every record; persist and return true only when the length changed.  The
result is the storage after the call together with the returned boolean. -/
def rmContainer (store : Option (List ContainerInfo)) (name : String) :
    Option (List ContainerInfo) × Bool :=
  match store with
  | none => (none, false)
  | some containers =>
      if containers.length = 0 then (some containers, false)
      else
        let filtered := containers.filter (fun d => ¬ jsRecordEqString d name)
        if filtered.length ≠ containers.length then (some filtered, true)
        else (some containers, false)

/-- isTerminalState, manager.ts lines 176-178. -/
def isTerminalState (state : ContainerState) : Bool :=
  state = ContainerState.stopped || state = ContainerState.failed

/-- One reconciliation pass over a present directory, manager.ts lines
128-158.  `stateOf` is the state fetched from each supervisor on line 139 and
`handleTerminal` the retirement policy of lines 180-184 (overridable, index.ts
lines 85-94).  Line 143 reads `const remove = this.handleTerminalState(c);`
without await: `handleTerminalState` is async, so `remove` is a Promise
object, and on line 144 `if (remove)` any Promise is truthy — the boolean the
policy returns is never consulted, and every terminal record goes to
`removals`.  Lines 152-154 iterate `for (const rm in removals)`, binding `rm`
to the index strings of the array, whose `.name` property is undefined;
`rmContainer(undefined)` keeps every record (see `rmContainer`) and changes
nothing.  The single `put` of `updated` on line 155 is the only directory
mutation, so the pass returns the updated list. -/
def updateContainerStates (stateOf : String → ContainerState)
    (handleTerminal : ContainerInfo → Bool) (dir : List ContainerInfo) :
    List ContainerInfo :=
  dir.foldl
    (fun updated c =>
      let s := stateOf c.name
      if isTerminalState s then
        let _removePromiseTruthy := handleTerminal c
        updated
      else updated ++ [{ c with state := s }])
    []

/-- The reconciliation pass as the spec states it, for comparison with
`updateContainerStates`: a terminal record is removed only when the policy
answers remove, and kept with a refreshed state otherwise. -/
def updateContainerStatesSpec (stateOf : String → ContainerState)
    (handleTerminal : ContainerInfo → Bool) (dir : List ContainerInfo) :
    List ContainerInfo :=
  dir.foldl
    (fun updated c =>
      let s := stateOf c.name
      if isTerminalState s && handleTerminal c then updated
      else updated ++ [{ c with state := s }])
    []

/-- Startup options with every optional field absent, as a concrete
fixture. -/
def opts0 : ContainerStartupOptions :=
  { env := none, entrypoint := none, enableInternet := none }

/-- A concrete directory record for a unit named "a" in the binding
"small". -/
def recSmallA : ContainerInfo :=
  { startupOpts := opts0, name := "a",
    state := ContainerState.starting, bindingName := "small" }

/-- C1: a probe cycle on a supervisor with a configured healthCheck does not
follow the §4.1 transition table.  With the unit in `starting` and a
healthCheck that returns "ok", the cycle writes `starting` back instead of
transitioning to `running`: line 113 of container.ts tests the undeclared
identifier `maybeHealthcheck` instead of the bound `maybeHealthCheck`, so the
configured check is never invoked and the no-healthcheck write-back branch
runs — while the dispatch code of lines 114-150, which implements the table,
maps the same outcome to `running`. -/
theorem c1_probe_cycle_ignores_configured_healthcheck :
    alarmStateWrite true (HealthCheckOutcome.ok (HealthCheckResult.str "ok"))
        ContainerState.starting = some ContainerState.starting
    ∧ probeDispatch (HealthCheckOutcome.ok (HealthCheckResult.str "ok"))
        ContainerState.starting = some ContainerState.running := by
  constructor <;> rfl

/-- C2: a reconciliation pass removes a terminal record even when the
retirement policy answers keep.  With one record whose fetched state is
`stopped` and a policy constantly false, the pass drops the record, while the
pass the spec describes keeps it with the refreshed state: line 143 of
manager.ts misses the await on the async policy call, and the resulting
Promise object is truthy on line 144. -/
theorem c2_reconcile_ignores_retirement_policy :
    updateContainerStates (fun _ => ContainerState.stopped) (fun _ => false)
        [recSmallA] = []
    ∧ updateContainerStatesSpec (fun _ => ContainerState.stopped)
        (fun _ => false) [recSmallA] =
        [{ recSmallA with state := ContainerState.stopped }] := by
  constructor <;> rfl

/-- C3: a second newUnit call with the same name adds a second directory
entry.  Starting from an empty directory, adding "a" twice leaves two records
named "a": the guard `containers.includes(name)` on line 93 of manager.ts
compares record objects to the name string and is always false, so the push
on line 94 runs on every call. -/
theorem c3_second_newunit_adds_duplicate_record :
    (addContainer (some (addContainer none "a" opts0 "small")) "a" opts0
        "small").filter (fun c => c.name == "a") =
      [recSmallA, recSmallA] := by
  rfl

/-- C4: when the completion monitor resolves while the state is `starting`,
the supervisor does not attach a fresh completion-monitor.  With promise id 0
attached and id 1 the next fresh one, the step leaves the bookkeeping
untouched — line 177 of container.ts re-attaches handlers to the same,
already resolved `this.monitor` — while the step the spec describes attaches
the fresh promise 1. -/
theorem c4_starting_resolve_reattaches_same_monitor :
    monitorResolveStep ContainerState.starting
        { attached := some 0, next := 1 } =
      (ContainerState.starting, { attached := some 0, next := 1 })
    ∧ (monitorResolveStepSpec ContainerState.starting
        { attached := some 0, next := 1 }).2.attached = some 1 := by
  constructor <;> rfl

/-- C5 counterexample: a supervisor operation writes "unknown" to storage.
On a freshly created supervisor the constructor arms the alarm immediately;
the first probe cycle reads the absent record as `unknown` and the write-back
branch of container.ts line 152 persists it, after which storage holds a
record yet state() still reports `unknown`. -/
theorem c5_unknown_written_by_probe_writeback :
    applyOp (SupervisorOp.alarmOp false
        (HealthCheckOutcome.ok (HealthCheckResult.str "ok"))) none =
      some ContainerState.unknown
    ∧ stateRead (some ContainerState.unknown) = ContainerState.unknown := by
  constructor <;> rfl

/-- C5 amended: the only supervisor write of "unknown" is the probe cycle
writing back a state that already reads as `unknown`, and state() reports
`unknown` exactly when storage holds no record or holds such a written-back
`unknown`. -/
theorem c5_unknown_only_from_writeback (op : SupervisorOp)
    (st : Option ContainerState) :
    (applyOp op st = some ContainerState.unknown →
      stateRead st = ContainerState.unknown)
    ∧ (stateRead st = ContainerState.unknown ↔
        st = none ∨ st = some ContainerState.unknown) := by
  constructor
  · intro h
    cases op with
    | alarmOp cfg outcome =>
        simp only [applyOp, alarmStateWrite, alarmProbeGuard, if_neg,
          Bool.false_eq_true, not_false_eq_true, ite_false] at h
        exact Option.some.inj h
    | monitorResolveOp =>
        cases st with
        | none => rfl
        | some s => cases s <;> simp_all [applyOp, stateRead]
    | monitorRejectOp => simp [applyOp] at h
    | startOp alreadyRunning =>
        cases alreadyRunning with
        | false => simp [applyOp] at h
        | true =>
            cases st with
            | none => rfl
            | some s => simp_all [applyOp, stateRead]
  · cases st with
    | none => simp [stateRead]
    | some s => cases s <;> simp [stateRead]

/-- C5 amended, witness: the probe cycle on empty storage writes `unknown`,
and indeed the prior state read as `unknown`. -/
theorem c5_unknown_only_from_writeback_witness :
    applyOp (SupervisorOp.alarmOp false
        (HealthCheckOutcome.ok (HealthCheckResult.str "ok"))) none =
      some ContainerState.unknown
    ∧ stateRead (none : Option ContainerState) = ContainerState.unknown :=
  ⟨rfl,
    (c5_unknown_only_from_writeback
      (SupervisorOp.alarmOp false
        (HealthCheckOutcome.ok (HealthCheckResult.str "ok"))) none).1 rfl⟩

/-- C7: removeUnit never removes anything.  With the directory holding
exactly one record named "a", the call removes nothing, persists nothing and
returns false: the filter `(d) => d !== name` on line 111 of manager.ts
compares each record object to the name string and keeps every record. -/
theorem c7_rmcontainer_removes_nothing :
    rmContainer (some [recSmallA]) "a" = (some [recSmallA], false) := by
  rfl

/-- C9: the dispatch on a probe internal error (container.ts lines 114-125)
writes `failed` exactly when the current state is not `starting`, and writes
nothing — leaving a starting unit in `starting` — otherwise; a probe error
never moves a starting unit to `failed`.  (Line 113 renders this dispatch
unreachable in actual runs; see C1.) -/
theorem c9_probe_error_spares_starting (state : ContainerState) :
    probeDispatch HealthCheckOutcome.err state =
      if state = ContainerState.starting then none
      else some ContainerState.failed := by
  cases state <;> rfl

/-- C6: requestUnit rejects when the directory holds zero or several records
for the name — including the missing-directory case, where line 73 of
manager.ts throws a TypeError — and with exactly one matching record it
resolves the binding named by that record and forwards to that supervisor
under the requested name. -/
theorem c6_request_unit_routing {β : Type} (bindings : List (String × β))
    (store : Option (List ContainerInfo)) (name : String) :
    requestContainer bindings none name = Except.error JsError.typeError
    ∧ (∀ cs, store = some cs →
        (cs.filter (fun c => c.name == name)).length ≠ 1 →
        requestContainer bindings store name =
          Except.error (JsError.noRecord name))
    ∧ (∀ cs c b, store = some cs →
        cs.filter (fun c => c.name == name) = [c] →
        getBinding bindings c.bindingName = Except.ok b →
        requestContainer bindings store name = Except.ok (b, name)) := by
  refine ⟨rfl, ?_, ?_⟩
  · intro cs hs hlen
    subst hs
    cases hf : cs.filter (fun c => c.name == name) with
    | nil => simp [requestContainer, hf]
    | cons c rest =>
      cases rest with
      | nil =>
        rw [hf] at hlen
        simp at hlen
      | cons c2 rest2 => simp [requestContainer, hf]
  · intro cs c b hs hf hb
    subst hs
    simp [requestContainer, hf, hb, Except.map]

/-- C6 witness: with one binding "small" and one record "a" in it, the
request for "a" resolves binding "small" and forwards under name "a". -/
theorem c6_request_unit_routing_witness :
    requestContainer [("small", 1)] (some [recSmallA]) "a" =
      Except.ok (1, "a") :=
  (c6_request_unit_routing [("small", 1)] (some [recSmallA]) "a").2.2
    [recSmallA] recSmallA 1 rfl (by rfl) (by rfl)

/-- C8: resolvePool with the empty name returns the single configured binding
when exactly one exists and rejects as ambiguous when two or more are
configured; with a non-empty name it returns the named binding or rejects
with a no-such-binding error when absent. -/
theorem c8_resolve_pool_cases {β : Type} (bindings : List (String × β)) :
    (∀ k v, bindings = [(k, v)] → getBinding bindings "" = Except.ok v)
    ∧ (2 ≤ bindings.length →
        getBinding bindings "" = Except.error JsError.ambiguousBinding)
    ∧ (∀ name v, name ≠ "" → bindings.lookup name = some v →
        getBinding bindings name = Except.ok v)
    ∧ (∀ name, name ≠ "" → bindings.lookup name = none →
        getBinding bindings name =
          Except.error (JsError.noSuchBinding name)) := by
  refine ⟨?_, ?_, ?_, ?_⟩
  · intro k v h
    subst h
    rfl
  · intro h
    cases bindings with
    | nil => simp at h
    | cons a rest =>
      cases rest with
      | nil => simp at h
      | cons b rest2 => simp [getBinding]
  · intro name v hn hl
    simp [getBinding, hn, hl]
  · intro name hn hl
    simp [getBinding, hn, hl]

/-- C8 witness: one binding resolves from the empty name, two reject as
ambiguous, a named binding resolves, and a missing name rejects. -/
theorem c8_resolve_pool_cases_witness :
    getBinding [("small", 1)] "" = Except.ok 1
    ∧ getBinding [("small", 1), ("large", 2)] "" =
        Except.error JsError.ambiguousBinding
    ∧ getBinding [("small", 1), ("large", 2)] "large" = Except.ok 2
    ∧ getBinding [("small", 1)] "medium" =
        Except.error (JsError.noSuchBinding "medium") :=
  ⟨(c8_resolve_pool_cases [("small", 1)]).1 "small" 1 rfl,
   (c8_resolve_pool_cases [("small", 1), ("large", 2)]).2.1 (by decide),
   (c8_resolve_pool_cases [("small", 1), ("large", 2)]).2.2.1 "large" 2
     (by decide) rfl,
   (c8_resolve_pool_cases [("small", 1)]).2.2.2 "medium" (by decide) rfl⟩

/-- C10: both alarm handlers leave a wake-up pending after every run, whether
or not the body threw and whether or not the platform consumed the pending
alarm on entry; the handler body never influences the scheduling effect; and
arming is idempotent — arming over a pending alarm keeps it, and arming twice
equals arming once. -/
theorem c10_wakeup_rearmed_and_idempotent (bodyFails cleared : Bool)
    (pending : Option Nat) (now t value : Nat) :
    (containerAlarmRun bodyFails cleared pending now).isSome = true
    ∧ containerAlarmRun bodyFails cleared pending now =
        containerAlarmRun false cleared pending now
    ∧ (managerAlarmRun bodyFails cleared pending now).isSome = true
    ∧ managerAlarmRun bodyFails cleared pending now =
        managerAlarmRun false cleared pending now
    ∧ setAlarmIfNone (some t) value = some t
    ∧ setAlarmIfNone (setAlarmIfNone pending value) now =
        setAlarmIfNone pending value := by
  refine ⟨?_, rfl, ?_, rfl, rfl, ?_⟩
  · cases cleared <;> cases pending <;> rfl
  · cases cleared <;> cases pending <;> rfl
  · cases pending <;> rfl

end ComputeExample
